import Mathlib

/-!
Verification of the Fabric A2A gateway (server.py, fabric_message_bus.py,
tools/base.py, tools/builtin_tools.py, tools/plugins/builtin_io.py,
tools/plugins/builtin_math.py, database/postgres_registry.py) against its
natural-language specification.

The embedding is shallow: Python dicts become association lists with
first-match lookup and in-place replacement (matching insertion-ordered
Python dict semantics), `uuid.uuid4()` becomes an injective fresh-id
generator threaded as explicit state, raised exceptions become explicit
error constructors, and async functions become pure functions whose
"side effect of interest" (invoking an adapter, invoking a stream) is
reified as a constructor of the result type.  Python truthiness on
optional strings (`if not x`, `x or y`) is modelled exactly: `None` and
the empty string are falsy.
-/

namespace Fabric

/-- Equality on `Except` values is decidable componentwise. -/
instance {ε α : Type} [DecidableEq ε] [DecidableEq α] : DecidableEq (Except ε α) := fun x y =>
  match x, y with
  | .ok a, .ok b =>
    if h : a = b then .isTrue (congrArg Except.ok h)
    else .isFalse (fun hh => h (Except.ok.inj hh))
  | .error a, .error b =>
    if h : a = b then .isTrue (congrArg Except.error h)
    else .isFalse (fun hh => h (Except.error.inj hh))
  | .ok _, .error _ => .isFalse (fun hh => Except.noConfusion hh)
  | .error _, .ok _ => .isFalse (fun hh => Except.noConfusion hh)

/-- Prefix test on character lists. -/
def prefixOfList : List Char → List Char → Bool
  | [], _ => true
  | _ :: _, [] => false
  | a :: as, b :: bs => a = b && prefixOfList as bs

/-- The Python `str.startswith` test, computed on the character lists so
that it evaluates inside the kernel. -/
def strStartsWith (s pre : String) : Bool :=
  prefixOfList pre.toList s.toList

/-- Association-list lookup with first-match semantics, the model of
Python `dict.get`. -/
def dictGet {α : Type} (d : List (String × α)) (k : String) : Option α :=
  match d with
  | [] => none
  | (k1, v) :: rest => if k1 = k then some v else dictGet rest k

/-- Association-list update, the model of Python `d[k] = v`: the first
binding of `k` is replaced in place, otherwise the binding is appended
(insertion order preserved, as for Python dicts). -/
def dictSet {α : Type} (d : List (String × α)) (k : String) (v : α) : List (String × α) :=
  match d with
  | [] => [(k, v)]
  | (k1, v1) :: rest => if k1 = k then (k, v) :: rest else (k1, v1) :: dictSet rest k v

/-- Truthiness of an optional string: Python treats `None` and `""` as falsy. -/
def truthy : Option String → Bool
  | none => false
  | some s => !s.isEmpty

/-- Model of the process-wide `uuid.uuid4()` stream: a counter; each draw
yields a distinct string.  Global uniqueness of uuid4 is represented by
the injectivity of `uuidStr` and, where a claim needs it, by the
hypothesis that request-supplied ids are not values of this stream. -/
structure UuidGen where
  counter : Nat
deriving DecidableEq, Repr

/-- String form of the n-th generated uuid. -/
def uuidStr (n : Nat) : String := "uuid-" ++ toString n

/-- Draw one fresh id from the generator. -/
def UuidGen.draw (g : UuidGen) : String × UuidGen :=
  (uuidStr g.counter, ⟨g.counter + 1⟩)

/-! ## Data model (server.py lines 55-207) -/

/-- AgentStatus enum (server.py). -/
inductive AgentStatus where
  | online | offline | degraded | unknown
deriving DecidableEq, Repr

/-- TransportType enum (server.py). -/
inductive TransportType where
  | http | ws | local | stdio
deriving DecidableEq, Repr

/-- TrustTier enum (server.py). -/
inductive TrustTier where
  | local | org | public
deriving DecidableEq, Repr

/-- ErrorCode enum (server.py). -/
inductive ErrorCode where
  | AGENT_OFFLINE | AGENT_NOT_FOUND | CAPABILITY_NOT_FOUND
  | AUTH_DENIED | AUTH_EXPIRED | AUTH_INVALID
  | TIMEOUT | BAD_INPUT | UPSTREAM_ERROR | INTERNAL_ERROR | RATE_LIMITED
deriving DecidableEq, Repr

/-- JSON-schema payloads are opaque to every claim; they are carried as
key-value lists. -/
abbrev Schema := List (String × String)

/-- Capability dataclass (server.py lines 124-133). -/
structure Capability where
  name : String
  description : String := ""
  modalities : List String := ["text"]
  streaming : Bool := false
  inputSchema : Schema := []
  outputSchema : Schema := []
  maxTimeoutMs : Nat := 60000
deriving DecidableEq, Repr

/-- AgentEndpoint dataclass (server.py lines 136-140). -/
structure AgentEndpoint where
  transport : TransportType
  uri : String
deriving DecidableEq, Repr

/-- AgentManifest dataclass (server.py lines 143-154). -/
structure AgentManifest where
  agentId : String
  displayName : String
  version : String
  description : String := ""
  capabilities : List Capability := []
  endpoint : Option AgentEndpoint := none
  tags : List String := []
  trustTier : TrustTier := .org
  status : AgentStatus := .unknown
deriving DecidableEq, Repr

/-- TraceContext dataclass (server.py lines 82-102). -/
structure TraceContext where
  traceId : String
  spanId : String
  parentSpanId : Option String := none
deriving DecidableEq, Repr

/-- TraceContext.create (server.py lines 89-95):
`trace_id or str(uuid.uuid4())` draws a fresh id when the supplied id is
`None` or empty (Python truthiness of `or`); `span_id` is always freshly
drawn. -/
def TraceContext.create (traceId : Option String) (parentSpanId : Option String)
    (g : UuidGen) : TraceContext × UuidGen :=
  let p :=
    match traceId with
    | some s => if s.isEmpty then g.draw else (s, g)
    | none => g.draw
  let q := p.2.draw
  ({ traceId := p.1, spanId := q.1, parentSpanId := parentSpanId }, q.2)

/-! ## Agent registry, in-memory profile (server.py lines 358-410) -/

/-- Runtime adapters are opaque handles in the embedding: the claims only
ask whether and with which envelope an adapter is invoked. -/
abbrev Adapter := Nat

/-- AgentRegistry (server.py lines 358-377): two insertion-ordered dicts. -/
structure AgentRegistry where
  agents : List (String × AgentManifest) := []
  adapters : List (String × Adapter) := []
deriving DecidableEq, Repr

/-- AgentRegistry.register (server.py lines 365-369): plain dict
assignment on both maps; the stored manifest is exactly the argument. -/
def AgentRegistry.register (reg : AgentRegistry) (manifest : AgentManifest)
    (adapter : Adapter) : AgentRegistry :=
  { agents := dictSet reg.agents manifest.agentId manifest,
    adapters := dictSet reg.adapters manifest.agentId adapter }

/-- AgentRegistry.get_agent (server.py lines 371-373). -/
def AgentRegistry.getAgent (reg : AgentRegistry) (agentId : String) : Option AgentManifest :=
  dictGet reg.agents agentId

/-- AgentRegistry.get_adapter (server.py lines 375-377). -/
def AgentRegistry.getAdapter (reg : AgentRegistry) (agentId : String) : Option Adapter :=
  dictGet reg.adapters agentId

/-! ## Authentication (server.py lines 417-434) -/

/-- AuthService.verify_psk (server.py lines 423-434): a missing or empty
token raises AUTH_DENIED, a wrong token raises AUTH_INVALID. -/
def verifyPsk (psk : String) (token : Option String) : Except ErrorCode Unit :=
  match token with
  | none => .error .AUTH_DENIED
  | some t =>
    if t.isEmpty then .error .AUTH_DENIED
    else if t ≠ psk then .error .AUTH_INVALID
    else .ok ()

/-! ## Dispatch core (server.py lines 455-665, 933-958) -/

/-- Arguments of an MCP tool call, restricted to the fields the dispatch
core reads (server.py `arguments.get(...)` sites).  Absent keys are
`none`. -/
structure CallArgs where
  agentId : Option String := none
  capability : Option String := none
  task : Option String := none
  stream : Bool := false
  timeoutMs : Option Nat := none
  traceTraceId : Option String := none
  traceParentSpanId : Option String := none
deriving DecidableEq, Repr

/-- Handler resolved by the if/elif chain of FabricServer.handle_tool_call
(server.py lines 477-497); `unknown` is the final else branch that raises
BAD_INPUT. -/
inductive Route where
  | agentList | agentDescribe | call | routePreview | health
  | toolList | toolCall | toolDescribe | builtinDirect | unknown
deriving DecidableEq, Repr

/-- Tool-framework operation names matched before the direct-tool branch
(server.py line 493). -/
def fabricToolMeta : List String :=
  ["fabric.tool.list", "fabric.tool.call", "fabric.tool.describe"]

/-- Operation-name resolution, transcribed from the if/elif chain of
FabricServer.handle_tool_call (server.py lines 477-497). -/
def routeOf (toolName : String) : Route :=
  if toolName = "fabric.agent.list" then .agentList
  else if toolName = "fabric.agent.describe" then .agentDescribe
  else if toolName = "fabric.call" then .call
  else if toolName = "fabric.route.preview" then .routePreview
  else if toolName = "fabric.health" then .health
  else if toolName = "fabric.tool.list" then .toolList
  else if toolName = "fabric.tool.call" then .toolCall
  else if toolName = "fabric.tool.describe" then .toolDescribe
  else if strStartsWith toolName "fabric.tool." && !(fabricToolMeta.contains toolName)
    then .builtinDirect
  else .unknown

/-- Outcome of FabricServer._handle_call (server.py lines 577-628): either
a raised FabricError or the adapter invocation `adapter.call(envelope)`.
The constructor `invoke` reifies the call so that "the adapter is never
invoked" is a statement about which constructor is produced. -/
inductive CallOutcome where
  | err (code : ErrorCode)
  | invoke (agentId : String) (capability : String) (adapter : Adapter)
deriving DecidableEq, Repr

/-- FabricServer._handle_call (server.py lines 577-628), in source order:
missing/falsy required argument, unknown agent, offline agent, unknown
capability, missing adapter, then the adapter call. -/
def handleCall (reg : AgentRegistry) (args : CallArgs) : CallOutcome :=
  if !(truthy args.agentId && truthy args.capability && truthy args.task) then
    .err .BAD_INPUT
  else
    match args.agentId with
    | none => .err .BAD_INPUT
    | some aid =>
      match reg.getAgent aid with
      | none => .err .AGENT_NOT_FOUND
      | some agent =>
        if agent.status = .offline then .err .AGENT_OFFLINE
        else
          match args.capability with
          | none => .err .BAD_INPUT
          | some cap =>
            match agent.capabilities.find? (fun c => c.name = cap) with
            | none => .err .CAPABILITY_NOT_FOUND
            | some _ =>
              match reg.getAdapter aid with
              | none => .err .INTERNAL_ERROR
              | some ad => .invoke aid cap ad

/-- Value returned by FabricServer.handle_tool_call (server.py lines
464-504): a FabricError rendered as `{ok:false, error:{code,...}, trace}`,
an adapter result (for fabric.call), or another handler's result.  Every
constructor carries the TraceContext built at entry. -/
inductive DispatchResult where
  | errorResp (code : ErrorCode) (trace : TraceContext)
  | adapterCall (agentId : String) (capability : String) (adapter : Adapter)
      (trace : TraceContext)
  | handled (r : Route) (trace : TraceContext)
deriving DecidableEq, Repr

/-- Trace carried by a dispatch result. -/
def DispatchResult.traceOf : DispatchResult → TraceContext
  | .errorResp _ t => t
  | .adapterCall _ _ _ t => t
  | .handled _ t => t

/-- FabricServer.handle_tool_call (server.py lines 464-504): build the
trace from the request's trace arguments, authenticate, resolve the
operation name, run the fabric.call handler when selected; FabricErrors
raised anywhere inside are caught and rendered with the same trace. -/
def handleToolCall (reg : AgentRegistry) (psk : String) (authToken : Option String)
    (toolName : String) (args : CallArgs) (g : UuidGen) : DispatchResult :=
  let trace := (TraceContext.create args.traceTraceId args.traceParentSpanId g).1
  match verifyPsk psk authToken with
  | .error c => .errorResp c trace
  | .ok _ =>
    match routeOf toolName with
    | .call =>
      match handleCall reg args with
      | .err c => .errorResp c trace
      | .invoke aid cap ad => .adapterCall aid cap ad trace
    | .unknown => .errorResp .BAD_INPUT trace
    | r => .handled r trace

/-- Outcome of FabricServer._handle_call_stream (server.py lines 630-665):
a raised FabricError, or the adapter streaming invocation
`adapter.call_stream(envelope)`.  The handler reads only `agent_id` and
`capability`; it performs no capability lookup and no streaming-flag
check before invoking the adapter. -/
inductive StreamOutcome where
  | err (code : ErrorCode)
  | invoke (agentId : String) (capability : Option String) (adapter : Adapter)
deriving DecidableEq, Repr

/-- FabricServer._handle_call_stream (server.py lines 630-665).  A missing
agent_id key makes `registry.get_agent(None)` return None, hence
AGENT_NOT_FOUND. -/
def handleCallStream (reg : AgentRegistry) (args : CallArgs) : StreamOutcome :=
  match args.agentId with
  | none => .err .AGENT_NOT_FOUND
  | some aid =>
    match reg.getAgent aid with
    | none => .err .AGENT_NOT_FOUND
    | some _ =>
      match reg.getAdapter aid with
      | none => .err .INTERNAL_ERROR
      | some ad => .invoke aid args.capability ad

/-- Result of the HTTP endpoint mcp_call (server.py lines 937-958): when
`arguments.stream` is truthy the request is promoted to the streaming
path (auth first, then _handle_call_stream); otherwise it goes through
handle_tool_call. -/
inductive McpCallResult where
  | plain (r : DispatchResult)
  | streamAuthErr (code : ErrorCode)
  | stream (s : StreamOutcome)
deriving DecidableEq, Repr

/-- HTTP endpoint mcp_call (server.py lines 937-958). -/
def mcpCall (reg : AgentRegistry) (psk : String) (authToken : Option String)
    (toolName : String) (args : CallArgs) (g : UuidGen) : McpCallResult :=
  if args.stream then
    match verifyPsk psk authToken with
    | .error c => .streamAuthErr c
    | .ok _ => .stream (handleCallStream reg args)
  else
    .plain (handleToolCall reg psk authToken toolName args g)

/-! ## Durable registry profile (database/postgres_registry.py lines 57-123)

The relational store is modelled by its two tables: agent rows with an
integer primary key, and capability rows keyed by the owning agent's
primary key.  `nextId` is the autoincrement counter. -/

/-- Agent row (database/models.py columns read by postgres_registry.py). -/
structure PgAgentRow where
  pk : Nat
  agentId : String
  displayName : String
  version : String
  description : String
  transport : TransportType
  endpointUri : String
  tags : List String
  trustTier : TrustTier
  status : AgentStatus
deriving DecidableEq, Repr

/-- Capability row: foreign key to the agent row plus the descriptor. -/
structure PgCapRow where
  ownerPk : Nat
  cap : Capability
deriving DecidableEq, Repr

/-- The durable store. -/
structure PgDB where
  agents : List PgAgentRow := []
  caps : List PgCapRow := []
  nextId : Nat := 0
deriving DecidableEq, Repr

/-- Update of the first list element satisfying a predicate (the model of
updating the single row returned by `query(...).first()`). -/
def updateFirst {α : Type} (p : α → Bool) (f : α → α) : List α → List α
  | [] => []
  | x :: xs => if p x then f x :: xs else x :: updateFirst p f xs

/-- Transport column written by register (postgres_registry.py lines 69, 87). -/
def manifestTransport (m : AgentManifest) : TransportType :=
  match m.endpoint with
  | some e => e.transport
  | none => .http

/-- Endpoint-uri column written by register (postgres_registry.py lines 70, 88). -/
def manifestUri (m : AgentManifest) : String :=
  match m.endpoint with
  | some e => e.uri
  | none => ""

/-- Row rewrite performed by the update branch of register
(postgres_registry.py lines 63-75): every identifying field is replaced
from the manifest, the status is forced to ONLINE, and the primary key is
kept. -/
def PgAgentRow.updateFrom (r : PgAgentRow) (m : AgentManifest) : PgAgentRow :=
  { pk := r.pk, agentId := r.agentId, displayName := m.displayName,
    version := m.version, description := m.description,
    transport := manifestTransport m, endpointUri := manifestUri m,
    tags := m.tags, trustTier := m.trustTier, status := .online }

/-- Row built by the insert branch of register (postgres_registry.py
lines 79-95): a fresh primary key and status ONLINE. -/
def PgAgentRow.ofManifest (pk : Nat) (m : AgentManifest) : PgAgentRow :=
  { pk := pk, agentId := m.agentId, displayName := m.displayName,
    version := m.version, description := m.description,
    transport := manifestTransport m, endpointUri := manifestUri m,
    tags := m.tags, trustTier := m.trustTier, status := .online }

/-- PostgresRegistry.register (postgres_registry.py lines 57-111): on an
existing agent_id the row's fields are rewritten, the status is forced to
ONLINE and the old capability rows are deleted; on a new agent_id a fresh
row with status ONLINE is inserted; either way the manifest's capability
rows are then added. -/
def PgDB.register (db : PgDB) (m : AgentManifest) : PgDB :=
  match db.agents.find? (fun r => r.agentId = m.agentId) with
  | some row =>
    { agents := updateFirst (fun r => r.agentId = m.agentId)
        (fun r => r.updateFrom m) db.agents,
      caps := db.caps.filter (fun c => c.ownerPk ≠ row.pk)
                ++ m.capabilities.map (fun c => ⟨row.pk, c⟩),
      nextId := db.nextId }
  | none =>
    { agents := db.agents ++ [PgAgentRow.ofManifest db.nextId m],
      caps := db.caps ++ m.capabilities.map (fun c => ⟨db.nextId, c⟩),
      nextId := db.nextId + 1 }

/-- The manifest _db_agent_to_manifest builds from a row and the store's
capability table (postgres_registry.py lines 420-455). -/
def PgDB.rowManifest (db : PgDB) (row : PgAgentRow) : AgentManifest :=
  { agentId := row.agentId, displayName := row.displayName,
    version := row.version, description := row.description,
    capabilities := (db.caps.filter (fun c => c.ownerPk = row.pk)).map (fun c => c.cap),
    endpoint := some ⟨row.transport, row.endpointUri⟩,
    tags := row.tags, trustTier := row.trustTier, status := row.status }

/-- PostgresRegistry.get_agent with _db_agent_to_manifest
(postgres_registry.py lines 113-123, 420-455). -/
def PgDB.getAgent (db : PgDB) (agentId : String) : Option AgentManifest :=
  (db.agents.find? (fun r => r.agentId = agentId)).map db.rowManifest

/-- Referential well-formedness of the store: every capability row points
below the autoincrement counter (true of any store produced by these
operations from the empty store; needed so a freshly allocated primary
key owns no stale capability rows). -/
def PgDB.WF (db : PgDB) : Prop :=
  ∀ c ∈ db.caps, c.ownerPk < db.nextId

/-! ## Tool registry (tools/base.py) -/

/-- Raw key-value payload of a tool result, opaque to the claims. -/
abbrev ToolArgs := List (String × String)

/-- The data dict carried by a ToolResult (tools/base.py lines 27-38): a
success payload, or the error-info dict built from a ToolError. -/
inductive TData where
  | payload (d : ToolArgs)
  | errInfo (code : String) (message : String)
deriving DecidableEq, Repr

/-- ToolResult (tools/base.py lines 27-38). -/
structure ToolResult where
  data : TData
  success : Bool := true
deriving DecidableEq, Repr

/-- Shape of ToolResult.to_dict (tools/base.py lines 33-38). -/
structure ToolDict where
  ok : Bool
  result : Option TData
  error : Option TData
deriving DecidableEq, Repr

/-- ToolResult.to_dict (tools/base.py lines 33-38). -/
def ToolResult.toDict (r : ToolResult) : ToolDict :=
  { ok := r.success,
    result := if r.success then some r.data else none,
    error := if r.success then none else some r.data }

/-- Error dict produced by wrapping a ToolError or a generic exception in
execute_tool (tools/base.py lines 190-209). -/
def errDict (code message : String) : ToolDict :=
  (ToolResult.mk (.errInfo code message) false).toDict

/-- Outcome of awaiting a capability method: a returned ToolResult, a
raised ToolError, or any other raised exception with its message. -/
inductive MethodOutcome where
  | ret (r : ToolResult)
  | raiseTool (code : String) (message : String)
  | raiseExc (message : String)
deriving Repr

/-- A registered tool class: TOOL_ID, the CAPABILITIES map from capability
name to method name, and the methods themselves (tools/base.py lines
52-103).  Singleton instantiation is state-free, so class and instance
coincide in the embedding. -/
structure ToolClass where
  toolId : String
  capabilities : List (String × String)
  methods : List (String × (ToolArgs → MethodOutcome))

/-- BaseTool.execute_capability (tools/base.py lines 155-177): unknown
capability name raises ToolError CAPABILITY_NOT_FOUND, a missing method
raises ToolError CAPABILITY_NOT_IMPLEMENTED, otherwise the method runs. -/
def executeCapability (t : ToolClass) (capability : String) (args : ToolArgs) :
    MethodOutcome :=
  match dictGet t.capabilities capability with
  | none => .raiseTool "CAPABILITY_NOT_FOUND"
      (s!"Capability {capability} not found on tool {t.toolId}")
  | some methodName =>
    match dictGet t.methods methodName with
    | none => .raiseTool "CAPABILITY_NOT_IMPLEMENTED"
        (s!"Method {methodName} for capability {capability} not implemented")
    | some f => f args

/-- Module-level execute_tool (tools/base.py lines 181-209): a missing
tool returns a structured TOOL_NOT_FOUND dict; ToolErrors raised by
execute_capability keep their code; any other exception is wrapped as
EXECUTION_ERROR preserving the message.  The function is total: every
path returns a ToolDict. -/
def executeTool (registry : List (String × ToolClass)) (toolId capability : String)
    (args : ToolArgs) : ToolDict :=
  match dictGet registry toolId with
  | none => errDict "TOOL_NOT_FOUND" (s!"Tool not found: {toolId}")
  | some t =>
    match executeCapability t capability args with
    | .ret r => r.toDict
    | .raiseTool c m => errDict c m
    | .raiseExc m => errDict "EXECUTION_ERROR" m

/-! ## Message bus (fabric_message_bus.py) -/

/-- MessagePriority enum (fabric_message_bus.py lines 31-35). -/
inductive MessagePriority where
  | low | normal | high | urgent
deriving DecidableEq, Repr

/-- Integer value of a priority (`priority.value`). -/
def MessagePriority.toInt : MessagePriority → Nat
  | .low => 1
  | .normal => 2
  | .high => 3
  | .urgent => 4

/-- FabricMessage dataclass (fabric_message_bus.py lines 46-88). -/
structure FabricMessage where
  id : String
  fromAgent : String
  toAgent : String
  messageType : String
  payload : ToolArgs
  timestamp : String
  priority : Nat := 2
  ttlSeconds : Nat := 86400
  replyTo : Option String := none
  correlationId : Option String := none
deriving DecidableEq, Repr

/-- FabricMessage.create (fabric_message_bus.py lines 60-81): the id is a
fresh uuid prefixed `msg:`; `correlation_id or str(uuid.uuid4())` draws a
second fresh id when the caller supplies `None` (or an empty string, by
Python truthiness).  The wall clock is threaded as the `timestamp`
argument. -/
def FabricMessage.create (fromAgent toAgent messageType : String) (payload : ToolArgs)
    (priority : MessagePriority) (replyTo : Option String)
    (correlationId : Option String) (timestamp : String) (g : UuidGen) :
    FabricMessage × UuidGen :=
  let u := g.draw
  let corr :=
    match correlationId with
    | some s => if s.isEmpty then u.2.draw else (s, u.2)
    | none => u.2.draw
  ({ id := "msg:" ++ u.1, fromAgent := fromAgent, toAgent := toAgent,
     messageType := messageType, payload := payload, timestamp := timestamp,
     priority := priority.toInt, replyTo := replyTo,
     correlationId := some corr.1 }, corr.2)

/-- Python dict-literal merge `{"task_type": t, **payload}`: later keys win. -/
def dictMerge (base extra : ToolArgs) : ToolArgs :=
  extra.foldl (fun d kv => dictSet d kv.1 kv.2) base

/-- FabricMessageBus.send_task (fabric_message_bus.py lines 189-207):
builds the message through FabricMessage.create with no correlation_id,
a "task" message type, and `reply_to or f"agent:{from_agent}:results"`. -/
def sendTask (fromAgent toAgent taskType : String) (payload : ToolArgs)
    (priority : MessagePriority) (replyTo : Option String) (timestamp : String)
    (g : UuidGen) : FabricMessage × UuidGen :=
  let reply :=
    match replyTo with
    | some s => if s.isEmpty then "agent:" ++ fromAgent ++ ":results" else s
    | none => "agent:" ++ fromAgent ++ ":results"
  FabricMessage.create fromAgent toAgent "task"
    (dictMerge [("task_type", taskType)] payload) priority (some reply) none
    timestamp g

/-- Priority-string translation in FabricMessageBusMCP.send
(fabric_message_bus.py lines 462-467): unknown strings default to NORMAL. -/
def priorityOfString (s : String) : MessagePriority :=
  if s = "low" then .low
  else if s = "normal" then .normal
  else if s = "high" then .high
  else if s = "urgent" then .urgent
  else .normal

/-- FabricMessageBusMCP.send, the fabric.message.send handler
(fabric_message_bus.py lines 451-478): constructs the message through
FabricMessage.create with no correlation_id. -/
def mcpSend (toAgent fromAgent messageType : String) (payload : ToolArgs)
    (priority : String) (replyTo : Option String) (timestamp : String)
    (g : UuidGen) : FabricMessage × UuidGen :=
  FabricMessage.create fromAgent toAgent messageType payload
    (priorityOfString priority) replyTo none timestamp g

/-- One entry of a Redis stream. -/
structure StreamEntry where
  id : String
  data : String
deriving DecidableEq, Repr

/-- The slice of Redis state the acknowledgement path touches: per-key
streams and the pending-entries list of (stream key, group, entry id). -/
structure RedisState where
  streams : List (String × List StreamEntry) := []
  pending : List (String × String × String) := []
deriving DecidableEq, Repr

/-- Redis XDEL: removes matching entries from the stream and returns how
many were removed (0 when the key or the id is absent). -/
def xdel (st : RedisState) (key entryId : String) : RedisState × Nat :=
  match dictGet st.streams key with
  | none => (st, 0)
  | some entries =>
    let remaining := entries.filter (fun e => e.id ≠ entryId)
    let removed := (entries.filter (fun e => e.id = entryId)).length
    ({ st with streams := dictSet st.streams key remaining }, removed)

/-- Redis XACK: removes the entry from the group's pending list and
returns how many entries were acknowledged (0 when it was not pending). -/
def xack (st : RedisState) (key group entryId : String) : RedisState × Nat :=
  ({ st with pending := st.pending.filter (fun p => p ≠ (key, group, entryId)) },
   (st.pending.filter (fun p => p = (key, group, entryId))).length)

/-- FabricMessageBus.acknowledge_message (fabric_message_bus.py lines
275-293): XACK under a consumer group, XDEL otherwise; the store's reply
(the count of entries actually retired) is discarded and the function
returns True unconditionally. -/
def acknowledgeMessage (st : RedisState) (agentId streamId : String)
    (consumerGroup : Option String) : RedisState × Bool :=
  let key := "agent:" ++ agentId ++ ":inbox"
  match consumerGroup with
  | some grp => ((xack st key grp streamId).1, true)
  | none => ((xdel st key streamId).1, true)

/-- FabricMessageBusMCP.acknowledge, the fabric.message.acknowledge
handler (fabric_message_bus.py lines 526-542): acknowledges each supplied
id in order and reports the per-id boolean returned by
acknowledge_message. -/
def mcpAcknowledge (st : RedisState) (agentId : String) (messageIds : List String)
    (consumerGroup : Option String) : RedisState × List (String × Bool) :=
  messageIds.foldl
    (fun acc mid =>
      let r := acknowledgeMessage acc.1 agentId mid consumerGroup
      (r.1, acc.2 ++ [(mid, r.2)]))
    (st, [])

/-! ## File read tool (tools/plugins/builtin_io.py lines 23-64) -/

/-- Substring containment (Python `r in path_str`). -/
def containsSub (hay needle : List Char) : Bool :=
  match hay with
  | [] => needle.isEmpty
  | _ :: t => prefixOfList needle hay || containsSub t needle

/-- Deny-list of IOTools._is_restricted_path (builtin_io.py lines 183-188). -/
def restrictedFragments : List String :=
  ["/etc/shadow", "/etc/passwd", ".ssh", ".env"]

/-- IOTools._is_restricted_path (builtin_io.py lines 183-188). -/
def isRestrictedPath (path : String) : Bool :=
  restrictedFragments.any (fun r => containsSub path.toList r.toList)

/-- The file system visible to the read tool: resolved path to the list
of physical lines, each chunk as Python file iteration yields it (with
its trailing newline, except possibly the last). -/
structure FileSys where
  files : List (String × List String) := []
deriving DecidableEq, Repr

/-- Fields of the ToolResult returned by IOTools.read. -/
structure ReadResult where
  content : String
  lineCount : Int
  truncated : Bool
deriving DecidableEq, Repr

/-- Number of newline characters in a string (`content.count` with a
newline argument). -/
def countNewlines (s : String) : Nat :=
  (s.toList.filter (fun c => c = Char.ofNat 10)).length

/-- The unlimited branch of IOTools.read (builtin_io.py lines 46-49). -/
def readAll (lines : List String) : ReadResult :=
  let content := String.join lines
  { content := content, lineCount := (countNewlines content : Int) + 1,
    truncated := false }

/-- IOTools.read (builtin_io.py lines 23-64).  The guard is the Python
`if max_lines:`, which is FALSE for `None` and for `0` (integer
truthiness), so `max_lines=0` takes the unlimited branch.  In the
truncating branch the loop `for i, line in enumerate(f): if i >= max_lines:
break` keeps the first `max_lines` lines (none when `max_lines` is
negative), and the result reports `truncated=True` and
`line_count=max_lines` unconditionally. -/
def ioRead (fs : FileSys) (path : String) (maxLines : Option Int) :
    Except (String × String) ReadResult :=
  if isRestrictedPath path then
    .error ("ACCESS_DENIED", s!"Access to path not allowed: {path}")
  else
    match dictGet fs.files path with
    | none => .error ("FILE_NOT_FOUND", s!"File not found: {path}")
    | some lines =>
      match maxLines with
      | some n =>
        if n ≠ 0 then
          .ok { content := String.join (lines.take n.toNat), lineCount := n,
                truncated := true }
        else
          .ok (readAll lines)
      | none => .ok (readAll lines)

/-! ## Math expression evaluator (tools/plugins/builtin_math.py lines 20-54) -/

/-- The expression fragment the evaluator receives, mirroring compiled
Python `eval`-mode code over names, attribute access, calls and
arithmetic.  Floating-point numerics are outside the embedding; values of
transcendental functions are carried opaquely. -/
inductive MExpr where
  | num (n : Int)
  | name (s : String)
  | attr (e : MExpr) (field : String)
  | call (f : MExpr) (arg : MExpr)
  | add (a b : MExpr)
  | mul (a b : MExpr)
  | neg (a : MExpr)
deriving DecidableEq, Repr

/-- The `co_names` of the compiled expression: every global name and
every attribute name occurring in the code object, in order of
appearance, as CPython records them. -/
def coNames : MExpr → List String
  | .num _ => []
  | .name s => [s]
  | .attr e f => coNames e ++ [f]
  | .call f a => coNames f ++ coNames a
  | .add a b => coNames a ++ coNames b
  | .mul a b => coNames a ++ coNames b
  | .neg a => coNames a

/-- The whitelist `allowed_names` of MathTools.eval (builtin_math.py
lines 24-34), keys in source order. -/
def allowedNames : List String :=
  ["abs", "round", "max", "min", "sum", "pow", "len", "math", "pi", "e",
   "sin", "cos", "tan", "asin", "acos", "atan", "sqrt", "log", "log10",
   "exp", "ceil", "floor", "degrees", "radians"]

/-- Runtime values of the evaluator: exact integers, opaquely carried
non-integer results, the whitelisted function objects, and the math
module object. -/
inductive MValue where
  | int (i : Int)
  | opaqueVal (tag : String)
  | fn (n : String)
  | modMath
deriving DecidableEq, Repr

/-- Names bound inside the `math` module that the whitelist can reach
through attribute access (the functions and constants MathTools.eval
names). -/
def mathAttrs : List String :=
  ["pi", "e", "sin", "cos", "tan", "asin", "acos", "atan", "sqrt", "log",
   "log10", "exp", "ceil", "floor", "degrees", "radians"]

/-- The evaluation environment: exactly the `allowed_names` dict passed
as locals to `eval`, with `{"__builtins__": {}}` as globals, so no name
outside the whitelist resolves. -/
def evalEnv : List (String × MValue) :=
  [("abs", .fn "abs"), ("round", .fn "round"), ("max", .fn "max"),
   ("min", .fn "min"), ("sum", .fn "sum"), ("pow", .fn "pow"),
   ("len", .fn "len"), ("math", .modMath),
   ("pi", .opaqueVal "pi"), ("e", .opaqueVal "e"),
   ("sin", .fn "sin"), ("cos", .fn "cos"), ("tan", .fn "tan"),
   ("asin", .fn "asin"), ("acos", .fn "acos"), ("atan", .fn "atan"),
   ("sqrt", .fn "sqrt"), ("log", .fn "log"), ("log10", .fn "log10"),
   ("exp", .fn "exp"), ("ceil", .fn "ceil"), ("floor", .fn "floor"),
   ("degrees", .fn "degrees"), ("radians", .fn "radians")]

/-- Application of a whitelisted function object.  `abs` on an integer is
computed exactly; the remaining functions yield opaquely tagged values
(their floating-point results are outside the embedding); calling a
non-function raises a TypeError, surfaced as EVAL_ERROR. -/
def applyFn (v arg : MValue) : Except (String × String) MValue :=
  match v with
  | .fn n =>
    match n, arg with
    | "abs", .int i => .ok (.int (Int.natAbs i))
    | _, _ => .ok (.opaqueVal n)
  | _ => .error ("EVAL_ERROR", "Could not evaluate: object is not callable")

/-- Evaluation of the compiled expression under `evalEnv`, the model of
the `eval(code, {"__builtins__": {}}, allowed_names)` call: name lookup
consults only `evalEnv` (a NameError, surfaced as EVAL_ERROR, otherwise),
attribute access is only defined on the math module, and arithmetic on
non-integers is opaque. -/
def evalCore : MExpr → Except (String × String) MValue
  | .num n => .ok (.int n)
  | .name s =>
    match dictGet evalEnv s with
    | some v => .ok v
    | none => .error ("EVAL_ERROR", s!"Could not evaluate: name {s} is not defined")
  | .attr e f => do
    let v ← evalCore e
    match v with
    | .modMath =>
      if mathAttrs.contains f then
        .ok (if f = "pi" || f = "e" then .opaqueVal f else .fn f)
      else
        .error ("EVAL_ERROR", s!"Could not evaluate: module math has no attribute {f}")
    | _ => .error ("EVAL_ERROR", s!"Could not evaluate: no attribute {f}")
  | .call f a => do
    let vf ← evalCore f
    let va ← evalCore a
    applyFn vf va
  | .add a b => do
    let va ← evalCore a
    let vb ← evalCore b
    match va, vb with
    | .int i, .int j => .ok (.int (i + j))
    | .int _, .opaqueVal t => .ok (.opaqueVal t)
    | .opaqueVal t, _ => .ok (.opaqueVal t)
    | _, _ => .error ("EVAL_ERROR", "Could not evaluate: bad operand")
  | .mul a b => do
    let va ← evalCore a
    let vb ← evalCore b
    match va, vb with
    | .int i, .int j => .ok (.int (i * j))
    | .int _, .opaqueVal t => .ok (.opaqueVal t)
    | .opaqueVal t, _ => .ok (.opaqueVal t)
    | _, _ => .error ("EVAL_ERROR", "Could not evaluate: bad operand")
  | .neg a => do
    let va ← evalCore a
    match va with
    | .int i => .ok (.int (-i))
    | .opaqueVal t => .ok (.opaqueVal t)
    | _ => .error ("EVAL_ERROR", "Could not evaluate: bad operand")

/-- MathTools.eval (builtin_math.py lines 20-54): the loop
`for name in code.co_names: if name not in allowed_names: raise
ToolError("INVALID_EXPRESSION", ...)` rejects the first name outside the
whitelist before any evaluation; only when every name is whitelisted is
the compiled code evaluated under `evalEnv`. -/
def mathEval (e : MExpr) : Except (String × String) MValue :=
  match (coNames e).find? (fun n => !(allowedNames.contains n)) with
  | some bad => .error ("INVALID_EXPRESSION", s!"Disallowed function: {bad}")
  | none => evalCore e

/-! ## Concrete fixtures used by witnesses and counterexamples -/

/-- A capability that declares no streaming support (`streaming=False` is
the dataclass default, as in the source). -/
def reasonCap : Capability := { name := "reason" }

/-- The agent of scenario 1 of the spec, registered online. -/
def alphaManifest : AgentManifest :=
  { agentId := "alpha", displayName := "Alpha", version := "1.0.0",
    capabilities := [reasonCap], status := .online }

/-- A registry holding exactly the alpha agent with adapter handle 0. -/
def regAlpha : AgentRegistry := AgentRegistry.register {} alphaManifest 0

/-- A manifest whose status field is left at the dataclass default
UNKNOWN, as a caller of the in-memory registry may build it. -/
def gammaManifest : AgentManifest :=
  { agentId := "gamma", displayName := "Gamma", version := "1.0.0",
    capabilities := [reasonCap] }

/-- A tool class whose single capability method raises a generic
exception, modelling an implementation failure inside a tool. -/
def crashingTool : ToolClass :=
  { toolId := "math.calculate", capabilities := [("eval", "eval")],
    methods := [("eval", fun _ => .raiseExc "division by zero")] }

/-- A registry holding exactly the crashing tool. -/
def crashingRegistry : List (String × ToolClass) := [("math.calculate", crashingTool)]

/-- One-file file system: a single-line text file. -/
def oneLineFs : FileSys := ⟨[("/tmp/a.txt", ["hello\n"])]⟩

/-! ## Helper lemmas -/

/-- Looking up the key just written returns the written value. -/
theorem dictGet_dictSet_self {α : Type} (d : List (String × α)) (k : String) (v : α) :
    dictGet (dictSet d k v) k = some v := by
  induction d with
  | nil => simp [dictGet, dictSet]
  | cons hd tl ih =>
    by_cases h : hd.1 = k
    · simp [dictSet, dictGet, h]
    · simp [dictSet, dictGet, h, ih]

/-- A successful association-list lookup means the key occurs in the list. -/
theorem dictGet_mem_keys {α : Type} (d : List (String × α)) (k : String) (v : α)
    (h : dictGet d k = some v) : k ∈ d.map (fun p => p.1) := by
  induction d with
  | nil => simp [dictGet] at h
  | cons hd tl ih =>
    by_cases hk : hd.1 = k
    · simp [hk]
    · simp only [dictGet, if_neg hk] at h
      simp [ih h]

/-- Updating the first match of a predicate, when the update preserves
the predicate, is reflected through `find?`. -/
theorem find?_updateFirst {α : Type} (p : α → Bool) (f : α → α) (l : List α) (a : α)
    (hf : ∀ x, p x = true → p (f x) = true)
    (h : l.find? p = some a) : (updateFirst p f l).find? p = some (f a) := by
  induction l with
  | nil => simp [List.find?] at h
  | cons hd tl ih =>
    by_cases hp : p hd = true
    · rw [List.find?_cons_of_pos _ hp] at h
      cases h
      simp [updateFirst, hp, List.find?_cons_of_pos _ (hf _ hp)]
    · rw [List.find?_cons_of_neg _ hp] at h
      simp only [updateFirst, if_neg hp]
      rw [List.find?_cons_of_neg _ hp]
      exact ih h

/-- The fabric.call name resolves to the call handler. -/
theorem routeOf_fabric_call : routeOf "fabric.call" = Route.call := rfl

/-- A correctly supplied pre-shared key authenticates. -/
theorem verifyPsk_ok (psk : String) (h : psk ≠ "") :
    verifyPsk psk (some psk) = .ok () := by
  simp [verifyPsk, String.isEmpty_iff, h]

/--
C1.  For every fabric.call request (one whose agent_id, capability and
task fields are supplied and non-empty, with a valid pre-shared key): if
the requested agent_id is not registered, dispatch returns the error
response with code AGENT_NOT_FOUND; if the agent is registered but its
status is offline, AGENT_OFFLINE; if the agent exists, is not offline,
but declares no capability with the requested name, CAPABILITY_NOT_FOUND.
In each case the result is the structured error response (ok:false with
error code and trace, the `errorResp` constructor) carrying the trace
built from the request, whose trace_id echoes a non-empty supplied
trace_id; and the result is never the `adapterCall` constructor, i.e. the
adapter is not invoked.
-/
theorem c1_fabric_call_error_codes
    (reg : AgentRegistry) (psk : String) (args : CallArgs) (g : UuidGen)
    (aid cap task : String)
    (hpsk : psk ≠ "")
    (ha : args.agentId = some aid) (ha2 : aid ≠ "")
    (hc : args.capability = some cap) (hc2 : cap ≠ "")
    (ht : args.task = some task) (ht2 : task ≠ "") :
    (reg.getAgent aid = none →
      handleToolCall reg psk (some psk) "fabric.call" args g
        = .errorResp .AGENT_NOT_FOUND
            (TraceContext.create args.traceTraceId args.traceParentSpanId g).1)
    ∧ (∀ m, reg.getAgent aid = some m → m.status = .offline →
      handleToolCall reg psk (some psk) "fabric.call" args g
        = .errorResp .AGENT_OFFLINE
            (TraceContext.create args.traceTraceId args.traceParentSpanId g).1)
    ∧ (∀ m, reg.getAgent aid = some m → m.status ≠ .offline →
        m.capabilities.find? (fun c => c.name = cap) = none →
      handleToolCall reg psk (some psk) "fabric.call" args g
        = .errorResp .CAPABILITY_NOT_FOUND
            (TraceContext.create args.traceTraceId args.traceParentSpanId g).1)
    ∧ (∀ t, args.traceTraceId = some t → t ≠ "" →
        (TraceContext.create args.traceTraceId args.traceParentSpanId g).1.traceId = t)
    ∧ (∀ code tr a c ad tr2,
        handleToolCall reg psk (some psk) "fabric.call" args g = .errorResp code tr →
        handleToolCall reg psk (some psk) "fabric.call" args g ≠ .adapterCall a c ad tr2) := by
  have hverify := verifyPsk_ok psk hpsk
  have e1 : aid.isEmpty = false :=
    Bool.eq_false_iff.mpr (fun hh => ha2 ((String.isEmpty_iff _).mp hh))
  have e2 : cap.isEmpty = false :=
    Bool.eq_false_iff.mpr (fun hh => hc2 ((String.isEmpty_iff _).mp hh))
  have e3 : task.isEmpty = false :=
    Bool.eq_false_iff.mpr (fun hh => ht2 ((String.isEmpty_iff _).mp hh))
  have t1 : truthy (some aid) = true := by simp [truthy, e1]
  have t2 : truthy (some cap) = true := by simp [truthy, e2]
  have t3 : truthy (some task) = true := by simp [truthy, e3]
  refine ⟨?_, ?_, ?_, ?_, ?_⟩
  · intro hnone
    simp [handleToolCall, hverify, routeOf_fabric_call, handleCall, t1, t2, t3, ha, hc, ht, hnone]
  · intro m hm hoff
    simp [handleToolCall, hverify, routeOf_fabric_call, handleCall, t1, t2, t3, ha, hc, ht, hm,
      hoff]
  · intro m hm hoff hcapn
    simp [handleToolCall, hverify, routeOf_fabric_call, handleCall, t1, t2, t3, ha, hc, ht, hm,
      hoff, hcapn]
  · intro t hts htne
    simp [TraceContext.create, hts, String.isEmpty_iff, htne]
  · intro code tr a c ad tr2 heq
    rw [heq]
    intro hcontra
    exact DispatchResult.noConfusion hcontra

/-- Witness for C1: in the registry holding only the alpha agent, a call
to the undeclared capability "dream" produces the CAPABILITY_NOT_FOUND
error response with the request's trace_id echoed. -/
theorem c1_fabric_call_error_codes_witness :
    handleToolCall regAlpha "secret" (some "secret") "fabric.call"
      { agentId := some "alpha", capability := some "dream", task := some "x",
        traceTraceId := some "tid" } ⟨0⟩
      = .errorResp .CAPABILITY_NOT_FOUND ⟨"tid", "uuid-0", none⟩ := by
  have h := (c1_fabric_call_error_codes regAlpha "secret"
    { agentId := some "alpha", capability := some "dream", task := some "x",
      traceTraceId := some "tid" } ⟨0⟩ "alpha" "dream" "x"
    (by decide) rfl (by decide) rfl (by decide) rfl (by decide)).2.2.1
  have h2 := h alphaManifest (by decide) (by decide) (by decide)
  simpa [TraceContext.create, UuidGen.draw, uuidStr] using h2

/--
C2, counterexample.  The claim asserts that a fabric.call request with
stream=true on a capability declaring streaming=false fails with
BAD_INPUT and never reaches call_stream.  On the registry holding the
alpha agent, whose only capability "reason" has streaming=false, the
streaming request is dispatched straight to the adapter's call_stream
(the `stream (.invoke ...)` outcome) and no BAD_INPUT error is produced.
-/
theorem c2_stream_flag_counterexample :
    reasonCap.streaming = false
    ∧ mcpCall regAlpha "secret" (some "secret") "fabric.call"
        { agentId := some "alpha", capability := some "reason", task := some "t",
          stream := true } ⟨0⟩
      = .stream (.invoke "alpha" (some "reason") 0)
    ∧ mcpCall regAlpha "secret" (some "secret") "fabric.call"
        { agentId := some "alpha", capability := some "reason", task := some "t",
          stream := true } ⟨0⟩
      ≠ .stream (.err .BAD_INPUT) := by
  refine ⟨rfl, by decide, by decide⟩

/--
C2, amended.  The streaming path of dispatch performs no capability
lookup and no streaming-flag check: for every request with stream=true
that authenticates, whenever the target agent and its adapter are
registered — in particular for any capability argument, including one
whose declared capability has streaming=false — the adapter's call_stream
is invoked; the only errors the streaming path can produce are the
authentication errors, AGENT_NOT_FOUND for an unregistered (or missing)
agent_id, and INTERNAL_ERROR for a missing adapter, never BAD_INPUT.
-/
theorem c2_stream_flag_not_checked
    (reg : AgentRegistry) (psk : String) (args : CallArgs) (g : UuidGen)
    (aid : String) (m : AgentManifest) (ad : Adapter)
    (hpsk : psk ≠ "")
    (hstream : args.stream = true)
    (ha : args.agentId = some aid)
    (hm : reg.getAgent aid = some m)
    (had : reg.getAdapter aid = some ad) :
    mcpCall reg psk (some psk) "fabric.call" args g
      = .stream (.invoke aid args.capability ad)
    ∧ ∀ s, mcpCall reg psk (some psk) "fabric.call" args g = .stream s →
        s ≠ .err .BAD_INPUT := by
  have hverify := verifyPsk_ok psk hpsk
  have hmain : mcpCall reg psk (some psk) "fabric.call" args g
      = .stream (.invoke aid args.capability ad) := by
    simp [mcpCall, hstream, hverify, handleCallStream, ha, hm, had]
  refine ⟨hmain, ?_⟩
  intro s hs
  rw [hmain] at hs
  cases hs
  intro hcontra
  exact StreamOutcome.noConfusion hcontra

/-- Witness for the amended C2: the concrete streaming request against
the alpha agent, whose capability has streaming=false, reaches
call_stream. -/
theorem c2_stream_flag_not_checked_witness :
    mcpCall regAlpha "secret" (some "secret") "fabric.call"
      { agentId := some "alpha", capability := some "reason", task := some "t",
        stream := true } ⟨0⟩
    = .stream (.invoke "alpha" (some "reason") 0) :=
  (c2_stream_flag_not_checked regAlpha "secret"
    { agentId := some "alpha", capability := some "reason", task := some "t",
      stream := true } ⟨0⟩ "alpha" alphaManifest 0
    (by decide) rfl rfl (by decide) (by decide)).1

/--
C3, evaluation at the failing inputs.  The dispatch chain of
handle_tool_call resolves the eight fabric.agent/call/route/health/tool
operation names (and the direct-tool prefix), but contains no branch for
the five messaging operation names: each of fabric.message.send,
.receive, .acknowledge, .publish and .queue_status falls through to the
final else and is answered with the BAD_INPUT "Unknown tool" error —
although FabricMessageBusMCP implements handlers for exactly these names
and the repository's own diagnostic test drives them through this
dispatch.  The claim that the dispatch core resolves them is therefore
contradicted by the code.
-/
theorem c3_messaging_ops_not_dispatched :
    (routeOf "fabric.message.send" = .unknown
      ∧ routeOf "fabric.message.receive" = .unknown
      ∧ routeOf "fabric.message.acknowledge" = .unknown
      ∧ routeOf "fabric.message.publish" = .unknown
      ∧ routeOf "fabric.message.queue_status" = .unknown)
    ∧ handleToolCall {} "secret" (some "secret") "fabric.message.send" {} ⟨0⟩
        = .errorResp .BAD_INPUT ⟨"uuid-0", "uuid-1", none⟩
    ∧ handleToolCall {} "secret" (some "secret") "fabric.message.acknowledge" {} ⟨0⟩
        = .errorResp .BAD_INPUT ⟨"uuid-0", "uuid-1", none⟩
    ∧ (routeOf "fabric.agent.list" = .agentList
      ∧ routeOf "fabric.agent.describe" = .agentDescribe
      ∧ routeOf "fabric.call" = .call
      ∧ routeOf "fabric.route.preview" = .routePreview
      ∧ routeOf "fabric.health" = .health
      ∧ routeOf "fabric.tool.list" = .toolList
      ∧ routeOf "fabric.tool.call" = .toolCall
      ∧ routeOf "fabric.tool.describe" = .toolDescribe
      ∧ routeOf "fabric.tool.io.read_file" = .builtinDirect) := by
  refine ⟨⟨?_, ?_, ?_, ?_, ?_⟩, ?_, ?_, ?_, ?_, ?_, ?_, ?_, ?_, ?_, ?_, ?_⟩ <;> decide

/-- Appending after a list in which nothing matches shifts `find?` to the
second list. -/
theorem find?_append_none {α : Type} (p : α → Bool) (l1 l2 : List α)
    (h : l1.find? p = none) : (l1 ++ l2).find? p = l2.find? p := by
  induction l1 with
  | nil => simp
  | cons hd tl ih =>
    by_cases hp : p hd = true
    · rw [List.find?_cons_of_pos _ hp] at h
      cases h
    · rw [List.find?_cons_of_neg _ hp] at h
      simpa [List.find?_cons_of_neg _ hp] using ih h

/-- A filter whose predicate fails everywhere is empty. -/
theorem filter_eq_nil_of {α : Type} (p : α → Bool) (l : List α)
    (h : ∀ a ∈ l, p a = false) : l.filter p = [] := by
  induction l with
  | nil => rfl
  | cons hd tl ih =>
    have h1 : p hd = false := h hd (by simp)
    simp [List.filter_cons, h1, ih (fun a ha => h a (by simp [ha]))]

/-- A filter whose predicate holds everywhere is the identity. -/
theorem filter_eq_self_of {α : Type} (p : α → Bool) (l : List α)
    (h : ∀ a ∈ l, p a = true) : l.filter p = l := by
  induction l with
  | nil => rfl
  | cons hd tl ih =>
    have h1 : p hd = true := h hd (by simp)
    simp [List.filter_cons, h1, ih (fun a ha => h a (by simp [ha]))]

/-- Capability rows minted for one agent key survive the owner filter and
project back to the original capability list. -/
theorem capRows_roundtrip (pk : Nat) (caps : List Capability) :
    (((caps.map (fun c => (⟨pk, c⟩ : PgCapRow))).filter
        (fun c => c.ownerPk = pk)).map (fun c => c.cap)) = caps := by
  have hall : ∀ a ∈ caps.map (fun c => (⟨pk, c⟩ : PgCapRow)),
      (fun c => decide (c.ownerPk = pk)) a = true := by
    intro a ha
    rcases List.mem_map.mp ha with ⟨c, _, rfl⟩
    simp
  rw [filter_eq_self_of _ _ hall, List.map_map]
  exact List.map_id caps

/--
C4, counterexample.  The claim asserts that after register the stored
manifest's status is online under both registry profiles.  The in-memory
AgentRegistry.register stores the manifest verbatim: registering the
gamma manifest, whose status field is the dataclass default UNKNOWN,
leaves get returning status unknown, not online.
-/
theorem c4_register_status_counterexample :
    ((AgentRegistry.register {} gammaManifest 7).getAgent "gamma").map
        (fun m => m.status) = some .unknown
    ∧ AgentStatus.unknown ≠ AgentStatus.online := by
  refine ⟨by decide, by decide⟩

/--
C4, amended.  After register(manifest, adapter) — whether or not an agent
with the same agent_id was already registered — get(agent_id) returns a
manifest whose capability set equals manifest.capabilities exactly (no
capability from a prior registration survives) in both profiles.  The
durable registry additionally forces the stored status to online; the
in-memory registry stores the manifest unchanged, so the returned status
is whatever status the manifest carried.
-/
theorem c4_register_replaces_wholesale
    (reg : AgentRegistry) (m : AgentManifest) (ad : Adapter) (db : PgDB)
    (hwf : ∀ c ∈ db.caps, c.ownerPk < db.nextId) :
    (AgentRegistry.register reg m ad).getAgent m.agentId = some m
    ∧ ∃ m2, (db.register m).getAgent m.agentId = some m2
        ∧ m2.capabilities = m.capabilities ∧ m2.status = .online := by
  constructor
  · exact dictGet_dictSet_self reg.agents m.agentId m
  · cases hfind : db.agents.find? (fun r => r.agentId = m.agentId) with
    | some row =>
      have hpres : ∀ r : PgAgentRow, (fun r => decide (r.agentId = m.agentId)) r = true →
          (fun r => decide (r.agentId = m.agentId)) (r.updateFrom m) = true := by
        intro r hr
        simpa [PgAgentRow.updateFrom] using hr
      have hfind2 := find?_updateFirst (fun r => decide (r.agentId = m.agentId))
        (fun r => r.updateFrom m) db.agents row hpres hfind
      have hget : (db.register m).getAgent m.agentId
          = some ((db.register m).rowManifest (row.updateFrom m)) := by
        simp only [PgDB.getAgent, PgDB.register, hfind]
        rw [hfind2]
        rfl
      refine ⟨(db.register m).rowManifest (row.updateFrom m), hget, ?_, ?_⟩
      · have hnil : (db.caps.filter (fun c => c.ownerPk ≠ row.pk)).filter
            (fun c => c.ownerPk = (row.updateFrom m).pk) = [] := by
          refine filter_eq_nil_of _ _ ?_
          intro a ha
          have hne := List.of_mem_filter ha
          simp only [PgAgentRow.updateFrom]
          simpa using hne
        show (((db.register m).caps.filter
            (fun c => c.ownerPk = (row.updateFrom m).pk)).map (fun c => c.cap))
          = m.capabilities
        simp only [PgDB.register, hfind, List.filter_append, hnil, List.nil_append]
        have hpk : (row.updateFrom m).pk = row.pk := rfl
        rw [hpk]
        exact capRows_roundtrip row.pk m.capabilities
      · simp [PgDB.rowManifest, PgAgentRow.updateFrom]
    | none =>
      have hfind2 : ((db.agents ++ [PgAgentRow.ofManifest db.nextId m]).find?
          (fun r => r.agentId = m.agentId)) = some (PgAgentRow.ofManifest db.nextId m) := by
        rw [find?_append_none _ _ _ hfind]
        simp [PgAgentRow.ofManifest]
      have hget : (db.register m).getAgent m.agentId
          = some ((db.register m).rowManifest (PgAgentRow.ofManifest db.nextId m)) := by
        simp only [PgDB.getAgent, PgDB.register, hfind]
        rw [hfind2]
        rfl
      refine ⟨(db.register m).rowManifest (PgAgentRow.ofManifest db.nextId m), hget, ?_, ?_⟩
      · have hnil : db.caps.filter
            (fun c => c.ownerPk = (PgAgentRow.ofManifest db.nextId m).pk) = [] := by
          refine filter_eq_nil_of _ _ ?_
          intro a ha
          have := hwf a ha
          simp only [PgAgentRow.ofManifest]
          simp only [decide_eq_false_iff_not]
          omega
        show (((db.register m).caps.filter
            (fun c => c.ownerPk = (PgAgentRow.ofManifest db.nextId m).pk)).map
              (fun c => c.cap))
          = m.capabilities
        simp only [PgDB.register, hfind, List.filter_append, hnil, List.nil_append]
        have hpk : (PgAgentRow.ofManifest db.nextId m).pk = db.nextId := rfl
        rw [hpk]
        exact capRows_roundtrip db.nextId m.capabilities
      · simp [PgDB.rowManifest, PgAgentRow.ofManifest]

/-- Witness for the amended C4: registering the alpha manifest into the
empty store (trivially well-formed) and into the in-memory registry; the
durable profile returns its capabilities with status online, and the
in-memory profile returns the manifest as given. -/
theorem c4_register_replaces_wholesale_witness :
    (AgentRegistry.register {} alphaManifest 0).getAgent "alpha" = some alphaManifest
    ∧ ∃ m2, (PgDB.register {} alphaManifest).getAgent "alpha" = some m2
        ∧ m2.capabilities = alphaManifest.capabilities ∧ m2.status = .online := by
  have h := c4_register_replaces_wholesale {} alphaManifest 0 {} (by simp [PgDB.caps])
  simpa [alphaManifest] using h

/--
C5.  Tool execution execute(tool_id, capability, args) on the plugin
registry: for every unknown tool_id it returns the structured error dict
with code TOOL_NOT_FOUND; for a known tool_id with an unknown capability
it returns the CAPABILITY_NOT_FOUND error dict; and when the capability
method raises a generic exception, it returns the EXECUTION_ERROR error
dict whose message is exactly the exception's message.  In all three
cases the function returns a ToolDict value — it is total by
construction, so no exception escapes.
-/
theorem c5_execute_tool_structured_errors
    (registry : List (String × ToolClass)) (toolId capability : String)
    (args : ToolArgs) :
    (dictGet registry toolId = none →
      executeTool registry toolId capability args
        = errDict "TOOL_NOT_FOUND" (s!"Tool not found: {toolId}"))
    ∧ (∀ t, dictGet registry toolId = some t →
        dictGet t.capabilities capability = none →
      executeTool registry toolId capability args
        = errDict "CAPABILITY_NOT_FOUND"
            (s!"Capability {capability} not found on tool {t.toolId}"))
    ∧ (∀ t methodName f msg, dictGet registry toolId = some t →
        dictGet t.capabilities capability = some methodName →
        dictGet t.methods methodName = some f →
        f args = .raiseExc msg →
      executeTool registry toolId capability args = errDict "EXECUTION_ERROR" msg) := by
  refine ⟨?_, ?_, ?_⟩
  · intro hnone
    simp [executeTool, hnone]
  · intro t ht hcap
    simp [executeTool, ht, executeCapability, hcap]
  · intro t methodName f msg ht hcap hmeth hexc
    simp [executeTool, ht, executeCapability, hcap, hmeth, hexc]

/-- Witness for C5: in the registry holding only the crashing
math.calculate tool, an unknown tool id yields the TOOL_NOT_FOUND dict,
an unknown capability on the known tool yields CAPABILITY_NOT_FOUND, and
the crashing eval capability yields EXECUTION_ERROR with the preserved
message. -/
theorem c5_execute_tool_structured_errors_witness :
    executeTool crashingRegistry "no.such.tool" "eval" []
      = errDict "TOOL_NOT_FOUND" "Tool not found: no.such.tool"
    ∧ executeTool crashingRegistry "math.calculate" "analyze" []
      = errDict "CAPABILITY_NOT_FOUND" "Capability analyze not found on tool math.calculate"
    ∧ executeTool crashingRegistry "math.calculate" "eval" []
      = errDict "EXECUTION_ERROR" "division by zero" := by
  refine ⟨?_, ?_, ?_⟩
  · exact (c5_execute_tool_structured_errors crashingRegistry "no.such.tool" "eval" []).1
      (by simp [crashingRegistry, dictGet])
  · have h := (c5_execute_tool_structured_errors crashingRegistry "math.calculate"
      "analyze" []).2.1 crashingTool (by simp [crashingRegistry, dictGet])
      (by simp [crashingTool, dictGet])
    simpa [crashingTool] using h
  · exact (c5_execute_tool_structured_errors crashingRegistry "math.calculate"
      "eval" []).2.2 crashingTool "eval" (fun _ => .raiseExc "division by zero")
      "division by zero" (by simp [crashingRegistry, dictGet])
      (by simp [crashingTool, dictGet]) (by simp [crashingTool, dictGet]) rfl

/--
C6, counterexample.  The claim asserts that the response trace_id equals
the trace_id supplied in the request's trace arguments whenever one is
supplied.  A request supplying the empty string as its trace_id is not
echoed: `trace_id or str(uuid.uuid4())` treats the empty string as falsy,
so dispatch answers with a freshly generated id instead.
-/
theorem c6_trace_echo_counterexample :
    (handleToolCall {} "secret" (some "secret") "fabric.health"
        { traceTraceId := some "" } ⟨0⟩).traceOf.traceId = "uuid-0"
    ∧ (handleToolCall {} "secret" (some "secret") "fabric.health"
        { traceTraceId := some "" } ⟨0⟩).traceOf.traceId ≠ "" := by
  refine ⟨by decide, by decide⟩

/--
C6, amended.  For every call handled by dispatch, the trace in the
response satisfies: trace_id equals the trace_id supplied in the
request's trace arguments when a non-empty one is supplied; when the
request supplies no trace_id, or supplies the empty string, it is a
freshly generated id; span_id is freshly generated for this call; and,
since a generated id never collides with an id minted elsewhere, span_id
differs from any parent_span_id carried by the request.
-/
theorem c6_trace_construction
    (reg : AgentRegistry) (psk : String) (tok : Option String)
    (toolName : String) (args : CallArgs) (g : UuidGen) :
    (∀ s, args.traceTraceId = some s → s ≠ "" →
      (handleToolCall reg psk tok toolName args g).traceOf.traceId = s)
    ∧ (args.traceTraceId = none ∨ args.traceTraceId = some "" →
      (handleToolCall reg psk tok toolName args g).traceOf.traceId = uuidStr g.counter)
    ∧ (∃ k, (handleToolCall reg psk tok toolName args g).traceOf.spanId = uuidStr k)
    ∧ (∀ p, args.traceParentSpanId = some p → (∀ k, p ≠ uuidStr k) →
      (handleToolCall reg psk tok toolName args g).traceOf.spanId ≠ p) := by
  have htrace : (handleToolCall reg psk tok toolName args g).traceOf
      = (TraceContext.create args.traceTraceId args.traceParentSpanId g).1 := by
    simp only [handleToolCall]
    cases verifyPsk psk tok with
    | error c => rfl
    | ok u =>
      cases hroute : routeOf toolName with
      | call =>
        simp only [hroute]
        cases handleCall reg args <;> rfl
      | unknown => simp only [hroute]; rfl
      | agentList => simp only [hroute]; rfl
      | agentDescribe => simp only [hroute]; rfl
      | routePreview => simp only [hroute]; rfl
      | health => simp only [hroute]; rfl
      | toolList => simp only [hroute]; rfl
      | toolCall => simp only [hroute]; rfl
      | toolDescribe => simp only [hroute]; rfl
      | builtinDirect => simp only [hroute]; rfl
  refine ⟨?_, ?_, ?_, ?_⟩
  · intro s hs hne
    have he : s.isEmpty = false :=
      Bool.eq_false_iff.mpr (fun hh => hne ((String.isEmpty_iff _).mp hh))
    rw [htrace]
    simp [TraceContext.create, hs, he]
  · intro hcase
    rw [htrace]
    rcases hcase with h | h <;>
      simp [TraceContext.create, h, UuidGen.draw,
        show ("" : String).isEmpty = true from rfl]
  · rw [htrace]
    rcases hid : args.traceTraceId with _ | s
    · exact ⟨g.counter + 1, by simp [TraceContext.create, UuidGen.draw]⟩
    · by_cases he : s.isEmpty = true
      · exact ⟨g.counter + 1, by simp [TraceContext.create, UuidGen.draw, he]⟩
      · have he2 : s.isEmpty = false := Bool.eq_false_iff.mpr he
        exact ⟨g.counter, by simp [TraceContext.create, UuidGen.draw, he2]⟩
  · intro p hp hfar
    rw [htrace]
    rcases hid : args.traceTraceId with _ | s
    · simpa [TraceContext.create, UuidGen.draw] using (hfar (g.counter + 1)).symm
    · by_cases he : s.isEmpty = true
      · simpa [TraceContext.create, UuidGen.draw, he] using (hfar (g.counter + 1)).symm
      · have he2 : s.isEmpty = false := Bool.eq_false_iff.mpr he
        simpa [TraceContext.create, UuidGen.draw, he2] using (hfar g.counter).symm

/-- The length of the n-th generated uuid is at least five characters, so
a generated id can never be the one-character string "p". -/
theorem uuidStr_ne_p (k : Nat) : ("p" : String) ≠ uuidStr k := by
  intro h
  have hl := congrArg String.length h
  rw [uuidStr, String.length_append] at hl
  rw [show ("p" : String).length = 1 from rfl,
    show ("uuid-" : String).length = 5 from rfl] at hl
  omega

/-- Witness for the amended C6: a request carrying trace_id "tid" and
parent_span_id "p" gets "tid" echoed, and its fresh span_id differs
from "p". -/
theorem c6_trace_construction_witness :
    (handleToolCall {} "secret" (some "secret") "fabric.health"
        { traceTraceId := some "tid", traceParentSpanId := some "p" } ⟨0⟩).traceOf.traceId
      = "tid"
    ∧ (handleToolCall {} "secret" (some "secret") "fabric.health"
        { traceTraceId := some "tid", traceParentSpanId := some "p" } ⟨0⟩).traceOf.spanId
      ≠ "p" := by
  have h := c6_trace_construction {} "secret" (some "secret") "fabric.health"
    { traceTraceId := some "tid", traceParentSpanId := some "p" } ⟨0⟩
  exact ⟨h.1 "tid" rfl (by decide), h.2.2.2 "p" rfl uuidStr_ne_p⟩

/--
C7, counterexample.  The claim asserts that reading an existing,
readable, non-restricted file with max_lines=0 returns empty content and
truncated=true when the file has at least one line.  On a one-line file,
the read returns the full content "hello\n" (non-empty) with
truncated=false: the Python guard `if max_lines:` treats 0 as falsy and
takes the unlimited branch.
-/
theorem c7_max_lines_zero_counterexample :
    ioRead oneLineFs "/tmp/a.txt" (some 0)
      = .ok { content := "hello\n", lineCount := 2, truncated := false }
    ∧ (∀ r, ioRead oneLineFs "/tmp/a.txt" (some 0) = .ok r →
        r.content ≠ "" ∧ r.truncated = false) := by
  refine ⟨by decide, ?_⟩
  intro r hr
  have h0 : ioRead oneLineFs "/tmp/a.txt" (some 0)
      = .ok { content := "hello\n", lineCount := 2, truncated := false } := by decide
  rw [h0] at hr
  cases hr
  exact ⟨by decide, rfl⟩

/--
C7, amended.  File read with max_lines=0 on an existing, readable,
non-restricted file behaves exactly like a read with no max_lines limit:
the zero is falsy under the `if max_lines:` guard, so the full content is
returned and truncated is false — truncated=true is never reported at
max_lines=0, however many lines the file has.
-/
theorem c7_max_lines_zero_reads_all
    (fs : FileSys) (path : String) (lines : List String)
    (hres : isRestrictedPath path = false)
    (hfile : dictGet fs.files path = some lines) :
    ioRead fs path (some 0) = ioRead fs path none
    ∧ ioRead fs path (some 0) = .ok (readAll lines)
    ∧ (readAll lines).truncated = false := by
  refine ⟨?_, ?_, rfl⟩
  · simp [ioRead, hres, hfile]
  · simp [ioRead, hres, hfile]

/-- Witness for the amended C7: the one-line file is read in full at
max_lines=0 and is reported untruncated. -/
theorem c7_max_lines_zero_reads_all_witness :
    ioRead oneLineFs "/tmp/a.txt" (some 0) = ioRead oneLineFs "/tmp/a.txt" none
    ∧ ioRead oneLineFs "/tmp/a.txt" (some 0) = .ok (readAll ["hello\n"])
    ∧ (readAll ["hello\n"]).truncated = false :=
  c7_max_lines_zero_reads_all oneLineFs "/tmp/a.txt" ["hello\n"]
    (by decide) (by decide)

/--
C8.  The math expression evaluator evaluates an expression only when
every name occurring in the compiled expression belongs to the fixed
whitelist of allowed names: the first name outside the whitelist is
rejected with error code INVALID_EXPRESSION before any evaluation; a
successful evaluation implies every name of the expression is
whitelisted; and the evaluation environment resolves no name outside the
whitelist (the globals contain only an empty `__builtins__`).
-/
theorem c8_math_eval_whitelist (e : MExpr) :
    (∀ bad, (coNames e).find? (fun n => !(allowedNames.contains n)) = some bad →
      mathEval e = .error ("INVALID_EXPRESSION", s!"Disallowed function: {bad}"))
    ∧ (∀ n, allowedNames.contains n = false → dictGet evalEnv n = none)
    ∧ (∀ v, mathEval e = .ok v → ∀ n ∈ coNames e, allowedNames.contains n = true) := by
  refine ⟨?_, ?_, ?_⟩
  · intro bad h
    unfold mathEval
    rw [h]
  · intro n hn
    cases hsome : dictGet evalEnv n with
    | none => rfl
    | some v =>
      exfalso
      have hmem := dictGet_mem_keys _ _ _ hsome
      have hsub : ∀ k ∈ evalEnv.map (fun p => p.1), allowedNames.contains k = true := by
        decide
      rw [hsub n hmem] at hn
      cases hn
  · intro v hv n hn
    cases hfind : (coNames e).find? (fun n => !(allowedNames.contains n)) with
    | some bad =>
      rw [mathEval, hfind] at hv
      cases hv
    | none =>
      have h := List.find?_eq_none.mp hfind n hn
      simpa using h

/-- Witness for C8: the expression consisting of the bare name `open` is
rejected with INVALID_EXPRESSION, and the evaluation environment does not
resolve the name `open`. -/
theorem c8_math_eval_whitelist_witness :
    mathEval (.name "open") = .error ("INVALID_EXPRESSION", "Disallowed function: open")
    ∧ dictGet evalEnv "open" = none := by
  have h := c8_math_eval_whitelist (.name "open")
  exact ⟨h.1 "open" (by decide), h.2.1 "open" (by decide)⟩

/--
C9.  Every message constructed through FabricMessage.create carries a
non-null correlation_id: when the caller supplies none, the fresh id
drawn right after the message id is used; and both enqueue paths that
build messages — send_task and the fabric.message.send handler — pass no
correlation_id, so their messages carry the freshly generated id.  The
idempotency key (from_agent, correlation_id) is therefore defined for
every delivered message.
-/
theorem c9_correlation_id_always_present
    (fromAgent toAgent messageType : String) (payload : ToolArgs)
    (priority : MessagePriority) (replyTo corrId : Option String)
    (timestamp : String) (g : UuidGen) :
    (FabricMessage.create fromAgent toAgent messageType payload priority replyTo
        corrId timestamp g).1.correlationId ≠ none
    ∧ (corrId = none →
      (FabricMessage.create fromAgent toAgent messageType payload priority replyTo
          corrId timestamp g).1.correlationId = some (uuidStr (g.counter + 1)))
    ∧ (∀ taskType rt,
      (sendTask fromAgent toAgent taskType payload priority rt
          timestamp g).1.correlationId = some (uuidStr (g.counter + 1)))
    ∧ (∀ prioStr rt,
      (mcpSend toAgent fromAgent messageType payload prioStr rt
          timestamp g).1.correlationId = some (uuidStr (g.counter + 1))) := by
  refine ⟨?_, ?_, ?_, ?_⟩
  · rcases corrId with _ | s
    · simp [FabricMessage.create, UuidGen.draw]
    · by_cases he : s.isEmpty = true <;>
        simp [FabricMessage.create, UuidGen.draw, he]
  · intro h
    simp [h, FabricMessage.create, UuidGen.draw, uuidStr]
  · intro taskType rt
    simp [sendTask, FabricMessage.create, UuidGen.draw, uuidStr]
  · intro prioStr rt
    simp [mcpSend, FabricMessage.create, UuidGen.draw, uuidStr]

/-- Witness for C9: a message created with no correlation_id carries the
second generated uuid as its correlation id, which is non-null. -/
theorem c9_correlation_id_always_present_witness :
    (FabricMessage.create "coder" "percy" "task" [] .normal none none
        "2026-10-12T00:00:00" ⟨0⟩).1.correlationId = some "uuid-1"
    ∧ (FabricMessage.create "coder" "percy" "task" [] .normal none none
        "2026-10-12T00:00:00" ⟨0⟩).1.correlationId ≠ none := by
  have h := c9_correlation_id_always_present "coder" "percy" "task" [] .normal
    none none "2026-10-12T00:00:00" ⟨0⟩
  exact ⟨h.2.1 rfl, h.1⟩

/-- Each step of the acknowledge loop appends an acked:true record. -/
theorem mcpAcknowledge_loop (agentId : String) (grp : Option String)
    (ids : List String) (st : RedisState) (acc : List (String × Bool)) :
    (ids.foldl
      (fun acc mid =>
        let r := acknowledgeMessage acc.1 agentId mid grp
        (r.1, acc.2 ++ [(mid, r.2)]))
      (st, acc)).2 = acc ++ ids.map (fun i => (i, true)) := by
  induction ids generalizing st acc with
  | nil => simp
  | cons hd tl ih =>
    have hstep : (acknowledgeMessage st agentId hd grp).2 = true := by
      cases grp <;> rfl
    simp only [List.foldl_cons, hstep, List.map_cons]
    rw [ih]
    simp

/--
C10.  acknowledge_message(agent_id, stream_id, consumer_group) returns
True for every input and every store state — including stream ids that do
not exist in the inbox or were already acknowledged or deleted, since the
count returned by XACK or XDEL is discarded; consequently the
fabric.message.acknowledge operation reports acked:true for every
supplied id regardless of whether any message was actually retired.
-/
theorem c10_acknowledge_always_true
    (st : RedisState) (agentId streamId : String) (grp : Option String) :
    (acknowledgeMessage st agentId streamId grp).2 = true
    ∧ ∀ ids : List String,
      (mcpAcknowledge st agentId ids grp).2 = ids.map (fun i => (i, true)) := by
  constructor
  · cases grp <;> rfl
  · intro ids
    have h := mcpAcknowledge_loop agentId grp ids st []
    simpa [mcpAcknowledge] using h

end Fabric
